import Mathlib

/-!
Verification of the `reelestate-worker` render-job pipeline.

The repository drives a render job through the states
`queued → processing → heygen_requested → rendering → rendering_in_progress
→ completed`, with `failed` on errors.  The definitions below are shallow
embeddings of the JavaScript source:

* `Job` — the `render_jobs` row as read and written by the code.
* `claimUpdate` — the atomic conditional update
  `update({status: X}).eq("id", id).eq("status", prior)` used by the worker
  to claim a job (`worker.js`, `processQueued` / `processRendering`).
* `Api.handleCallback` — the `/heygen-callback` handler of
  `reelestate-api/api.js` (token check, job lookup, `heygen_video_url`
  guard, the HeyGen status poll, and the final update).
* `LegacyApi.callbackV2` — the older `/heygen-callback` iteration found in
  `unnamed/part_000` (second version) which responds with error statuses.
* `Worker.processRendering` / `Worker.phase2Step` — Phase 2 of the
  production `worker.js` (lock, un-claim on missing avatar URL, composite,
  upload, completion update, notification email) together with the
  `catch → failJob` handling of the loop.
* `Part007.processRendering` — the earlier Phase-2 iteration of
  `unnamed/part_007`.
* `Worker.loopCycle` — one cycle of the `worker.js` scheduling loop.
* `Dl.downloadToFile` — the streaming downloader of `worker.js`
  (second version, `downloadToFile`).
* `Geo` — the geometry denoted by the background-normalization stanzas of
  the compositor filter graphs (`scale=1080:1920:force_original_aspect_
  ratio=decrease,pad=...` in `worker.js` versus `...=increase,crop=...` in
  `server.js`).
-/

/-- JavaScript `String.prototype.startsWith`, over the character list (the
primitive `String.startsWith` is extensionally the same but does not reduce
in the kernel). -/
def strStartsWith (s p : String) : Bool := p.data.isPrefixOf s.data

/-- `msg.slice(0, n)` of JavaScript, over the character list. -/
def jsSlice (s : String) (n : Nat) : String := String.mk (s.data.take n)

/-- Emptiness of a string, over the character list. -/
def strIsEmpty (s : String) : Bool := s.data.isEmpty

/-- JavaScript truthiness of a nullable string column: `null` and the empty
string are falsy, every other string is truthy. -/
def jsTruthy (o : Option String) : Bool :=
  match o with
  | some s => !strIsEmpty s
  | none => false

/-- The `render_jobs` row, with the columns the embedded code reads or
writes.  Nullable columns are `Option String`. -/
structure Job where
  id : Nat
  status : String
  walkthrough_url : Option String := none
  heygen_video_id : Option String := none
  heygen_video_url : Option String := none
  final_public_url : Option String := none
  error : Option String := none
  email : Option String := none
  deriving Repr, DecidableEq

/-- The atomic conditional update used to claim a job:
`update({status: next}).eq("id", id).eq("status", prior).select().maybeSingle()`.
Returns the new store state together with the updated row (`some`) when the
precondition held, and the unchanged state with `none` (zero affected rows)
otherwise. -/
def claimUpdate (j : Job) (prior next : String) : Job × Option Job :=
  if j.status = prior then
    let j' := { j with status := next }
    (j', some j')
  else (j, none)

/-- The Phase-1 lock of `worker.js` `processQueued`:
`update({status: "processing"}).eq("id", jobId).eq("status", "queued")`. -/
def lockQueued (j : Job) : Job × Option Job :=
  claimUpdate j "queued" "processing"

/-- The Phase-2 lock of `worker.js` `processRendering`:
`update({status: "rendering_in_progress"}).eq("id", jobId).eq("status", "rendering")`. -/
def lockRendering (j : Job) : Job × Option Job :=
  claimUpdate j "rendering" "rendering_in_progress"

namespace Api

/-- Nullable-string JavaScript `||`: keeps the left value when it is truthy
(non-null, non-empty), otherwise falls through to the right. -/
def jsOr (a b : Option String) : Option String :=
  match a with
  | some s => if strIsEmpty s then b else some s
  | none => b

/-- The `data` object of one HeyGen `v1/video.status` response, with the
fields probed by `fetchHeyGenVideoUrl`. -/
structure PollData where
  status : Option String := none
  video_url : Option String := none
  url : Option String := none
  videos0_video_url : Option String := none
  videos0_url : Option String := none
  deriving Repr, DecidableEq

/-- One HTTP response of the HeyGen status poll (`resp.ok` plus the parsed
JSON `data`, `none` when the body failed to parse or lacked `data`). -/
structure PollResp where
  ok : Bool
  data : Option PollData
  deriving Repr, DecidableEq

/-- The ordered URL extraction of `fetchHeyGenVideoUrl`:
`json?.data?.video_url || json?.data?.url || json?.data?.videos?.[0]?.video_url
|| json?.data?.videos?.[0]?.url || null`. -/
def extractPollUrl (d : PollData) : Option String :=
  jsOr d.video_url (jsOr d.url (jsOr d.videos0_video_url (jsOr d.videos0_url none)))

/-- `fetchHeyGenVideoUrl` of `reelestate-api/api.js`: iterate over the poll
attempts; on an `ok` response whose `data.status` is `"completed"` and whose
extracted URL starts with `"http"`, return that URL; otherwise keep polling
and return `null` when the attempts are exhausted. -/
def fetchHeyGenVideoUrl : List PollResp → Option String
  | [] => none
  | r :: rest =>
    if r.ok then
      match r.data with
      | some d =>
        match extractPollUrl d with
        | some u =>
          if d.status = some "completed" ∧ strStartsWith u "http" = true then some u
          else fetchHeyGenVideoUrl rest
        | none => fetchHeyGenVideoUrl rest
      | none => fetchHeyGenVideoUrl rest
    else fetchHeyGenVideoUrl rest

/-- `job.heygen_video_url && String(job.heygen_video_url).startsWith("http")`:
the guard of the handler for an already-set URL. -/
def urlIsHttp (o : Option String) : Bool :=
  match o with
  | some s => strStartsWith s "http"
  | none => false

/-- Query parameters of a webhook delivery, as extracted by the handler
(`req.query?.token ? String(req.query.token) : null`, same for `job_id`). -/
structure WebhookReq where
  token : Option String := none
  job_id : Option String := none
  deriving Repr, DecidableEq

/-- The post-authorization part of the `/heygen-callback` handler of
`reelestate-api/api.js` (which runs after the immediate
`res.json({ok:true})` and the token check): `job_id` presence, job lookup,
`heygen_video_id` presence, skip when `heygen_video_url` is already an http
URL, then poll HeyGen and — when a URL was obtained — issue
`update({status: "rendering", heygen_video_url: videoUrl}).eq("id", jobId)`.
Returns the updated row when that update is issued and `none` when the
handler exits without mutating the job. -/
def handleAuthorized (req : WebhookReq) (job : Option Job)
    (polls : List PollResp) : Option Job :=
  match req.job_id with
  | none => none
  | some _ =>
    match job with
    | none => none
    | some j =>
      if ¬ jsTruthy j.heygen_video_id then none
      else if urlIsHttp j.heygen_video_url then none
      else
        match fetchHeyGenVideoUrl polls with
        | none => none
        | some u => some { j with status := "rendering", heygen_video_url := some u }

/-- The full handler: `if (HEYGEN_WEBHOOK_SECRET) { if (!token || token !==
HEYGEN_WEBHOOK_SECRET) return; }` in front of the authorized part. -/
def handleCallback (secret : Option String) (req : WebhookReq)
    (job : Option Job) (polls : List PollResp) : Option Job :=
  match secret with
  | some s => if req.token = some s then handleAuthorized req job polls else none
  | none => handleAuthorized req job polls

/-- Observable transport events of a webhook delivery: the HTTP response
(status code plus whether the body is exactly the `ok:true` acknowledgment)
and a database update of the job row. -/
inductive WebhookEvent where
  | respond (code : Nat) (okBody : Bool)
  | dbUpdate
  deriving Repr, DecidableEq

/-- The event trace of the `api.js` handler: the very first statement is
`res.json({ ok: true })`, and a job update is issued afterwards only when
`handleCallback` reaches its final update. -/
def callbackTrace (secret : Option String) (req : WebhookReq)
    (job : Option Job) (polls : List PollResp) : List WebhookEvent :=
  WebhookEvent.respond 200 true ::
    (match handleCallback secret req job polls with
     | some _ => [WebhookEvent.dbUpdate]
     | none => [])

end Api

namespace LegacyApi

/-- The parsed body of the older `/heygen-callback` iteration in
`unnamed/part_000` (second version): `event_type` and `data.video_url`. -/
structure PayloadV2 where
  event_type : Option String := none
  video_url : Option String := none
  deriving Repr, DecidableEq

/-- The `/heygen-callback` handler of `unnamed/part_000` (second version),
as an event trace.  It checks the token first (`401` on mismatch when a
secret is configured), then requires `job_id` (`400`), then `video_url` in
the payload (`400`), then issues the job update and only afterwards
responds — `500` on a database error, otherwise `200` with a
`success:true` body (not the `ok:true` acknowledgment). -/
def callbackV2 (secret : Option String) (token job_id : Option String)
    (body : PayloadV2) (dbError : Bool) : List Api.WebhookEvent :=
  let tokenBad : Bool :=
    match secret with
    | some s => token ≠ some s
    | none => false
  if tokenBad then [Api.WebhookEvent.respond 401 false]
  else if ¬ jsTruthy job_id then [Api.WebhookEvent.respond 400 false]
  else if ¬ jsTruthy body.video_url then [Api.WebhookEvent.respond 400 false]
  else if dbError then [Api.WebhookEvent.dbUpdate, Api.WebhookEvent.respond 500 false]
  else [Api.WebhookEvent.dbUpdate, Api.WebhookEvent.respond 200 false]

end LegacyApi

namespace Worker

/-- Results of the external collaborators invoked by Phase 2 of
`worker.js`: the three downloads, the ffmpeg composite, the storage
upload (returning the public URL), the `status = completed` database
update, and the notification email. -/
structure Phase2Oracle where
  dlWalk : Except String Unit := .ok ()
  dlAvatar : Except String Unit := .ok ()
  dlLogo : Except String Unit := .ok ()
  ffmpeg : Except String Unit := .ok ()
  upload : Except String String
  updCompleted : Except String Unit := .ok ()
  sendEmail : Except String Unit := .ok ()
  deriving Repr

/-- `failJob` of `worker.js`:
`update({status: "failed", error: msg.slice(0, 2000)}).eq("id", jobId)`. -/
def failJobUpd (j : Job) (msg : String) : Job :=
  { j with status := "failed", error := some (jsSlice msg 2000) }

/-- `processRendering` of `worker.js` (production version), as its effect on
the job row.  Returns the row as left in the database when the function
returns or throws, together with the error that escaped (if any):

* the lock `update({status:"rendering_in_progress"}).eq("id",·).eq("status","rendering")`
  — zero affected rows means another worker claimed it and we return;
* the `heygen_video_url` re-check after locking — when absent, write the
  job back to `status = "rendering"` and return;
* downloads, ffmpeg, upload — a thrown error leaves the row locked;
* the completion update setting `status = "completed"` and
  `final_public_url`;
* `if (locked.email) await sendFinalEmail(...)` — a thrown email error
  escapes after the row is already completed. -/
def processRendering (j : Job) (o : Phase2Oracle) : Job × Option String :=
  if j.status ≠ "rendering" then (j, none)
  else
    let locked : Job := { j with status := "rendering_in_progress" }
    if ¬ jsTruthy locked.heygen_video_url then
      ({ locked with status := "rendering" }, none)
    else
      match o.dlWalk with
      | .error e => (locked, some e)
      | .ok _ =>
      match o.dlAvatar with
      | .error e => (locked, some e)
      | .ok _ =>
      match o.dlLogo with
      | .error e => (locked, some e)
      | .ok _ =>
      match o.ffmpeg with
      | .error e => (locked, some e)
      | .ok _ =>
      match o.upload with
      | .error e => (locked, some e)
      | .ok publicUrl =>
      match o.updCompleted with
      | .error e => (locked, some e)
      | .ok _ =>
        let done : Job :=
          { locked with status := "completed", final_public_url := some publicUrl }
        if jsTruthy locked.email then
          match o.sendEmail with
          | .error e => (done, some e)
          | .ok _ => (done, none)
        else (done, none)

/-- One Phase-2 attempt as seen from the worker loop of `worker.js`:
`try { await processRendering(job) } catch (err) { await failJob(job.id, err) }`.
An error escaping `processRendering` routes the row through `failJob`. -/
def phase2Step (j : Job) (o : Phase2Oracle) : Job :=
  match processRendering j o with
  | (j', none) => j'
  | (j', some e) => failJobUpd j' e

/-- `POLL_MS` default of `worker.js`: `Number(process.env.POLL_MS || 5000)`. -/
def POLL_MS : Nat := 5000

/-- Observable actions of one cycle of the `worker.js` scheduling loop. -/
inductive LoopEvent where
  | pollQueued
  | runPhase1 (id : Nat)
  | pollRendering
  | runPhase2 (id : Nat)
  | sleepMs (ms : Nat)
  deriving Repr, DecidableEq

/-- One cycle of the `worker.js` main loop: poll for the oldest `queued`
job; if found, run Phase 1 (success or failure), `await sleep(POLL_MS)`,
and `continue` (the `rendering` poll of this cycle is skipped).  Otherwise
poll for the oldest `rendering` job, run Phase 2 if found, and in either
case `await sleep(POLL_MS)` before the next cycle. -/
def loopCycle (queued rendering : Option Job) : List LoopEvent :=
  match queued with
  | some j => [LoopEvent.pollQueued, LoopEvent.runPhase1 j.id, LoopEvent.sleepMs POLL_MS]
  | none =>
    match rendering with
    | some j =>
      [LoopEvent.pollQueued, LoopEvent.pollRendering, LoopEvent.runPhase2 j.id,
       LoopEvent.sleepMs POLL_MS]
    | none =>
      [LoopEvent.pollQueued, LoopEvent.pollRendering, LoopEvent.sleepMs POLL_MS]

end Worker

namespace Part007

/-- `processRendering` of the earlier worker iteration `unnamed/part_007`:
after the `rendering → rendering_in_progress` lock, a missing
`heygen_video_url` makes the function return with no further update
(`if (!locked || !locked.heygen_video_url) return;`), leaving the row in
`rendering_in_progress`; otherwise it composites, uploads, and issues the
completion update. -/
def processRendering (j : Job) (composite : Except String String) : Job :=
  if j.status ≠ "rendering" then j
  else
    let locked : Job := { j with status := "rendering_in_progress" }
    if ¬ jsTruthy locked.heygen_video_url then locked
    else
      match composite with
      | .error _ => locked
      | .ok publicUrl =>
        { locked with status := "completed", final_public_url := some publicUrl }

end Part007

namespace Dl

/-- The HTTP response seen by `downloadToFile` of `worker.js` (second
version): `resp.ok`, the status code, the body either as a stream of chunk
sizes (`some`, when `resp.body.getReader` exists) or buffered whole
(`none`, the `arrayBuffer` fallback, with its total byte size). -/
structure Resp where
  ok : Bool
  status : Nat
  chunks : Option (List Nat)
  fallbackSize : Nat := 0
  deriving Repr, DecidableEq

/-- Outcome of a download: the result (or thrown error) and how many body
bytes were read from the network into this process before returning. -/
structure Outcome where
  result : Except String Unit
  bytesRead : Nat
  deriving Repr

/-- Total size of the response body. -/
def bodySize (r : Resp) : Nat :=
  match r.chunks with
  | some cs => cs.sum
  | none => r.fallbackSize

/-- The streaming read loop of `downloadToFile`: accumulate
`downloaded += value.byteLength` and throw as soon as
`downloaded > maxBytes`, leaving the remaining chunks unread.  Returns the
bytes read together with the result. -/
def streamLoop (maxBytes : Nat) : Nat → List Nat → Nat × Except String Unit
  | acc, [] => (acc, Except.ok ())
  | acc, c :: rest =>
    let d := acc + c
    if maxBytes < d then (d, Except.error "File too large")
    else streamLoop maxBytes d rest

/-- Numeric JavaScript `||` as used in `(maxMB || 9999)`: `undefined` AND
`0` are falsy, so both fall through to the default. -/
def jsNumOr (a : Option Nat) (b : Nat) : Nat :=
  match a with
  | some n => if n = 0 then b else n
  | none => b

/-- `downloadToFile(url, outPath, { maxMB })` of `worker.js` (second
version).  `fetched` is the result of `fetchRetry` — an error when the
request failed (timeout aborts and exhausted retries surface here).  The
URL must start with `"http"`; a non-ok response throws; the byte limit is
`(maxMB || 9999) * 1024 * 1024` (a missing or zero `maxMB` falls back to
the 9999 MB default); when the body is streamable the size limit is
checked chunk by chunk; otherwise the body is fully buffered via
`arrayBuffer` and checked afterwards. -/
def downloadToFile (url : String) (maxMB : Option Nat)
    (fetched : Except String Resp) : Outcome :=
  if !strStartsWith url "http" then { result := Except.error "Invalid URL", bytesRead := 0 }
  else
    match fetched with
    | .error e => { result := Except.error e, bytesRead := 0 }
    | .ok resp =>
      if !resp.ok then { result := Except.error "Download failed", bytesRead := 0 }
      else
        let maxBytes := jsNumOr maxMB 9999 * 1024 * 1024
        match resp.chunks with
        | none =>
          if maxBytes < resp.fallbackSize then
            { result := Except.error "File too large", bytesRead := resp.fallbackSize }
          else { result := Except.ok (), bytesRead := resp.fallbackSize }
        | some cs =>
          let r := streamLoop maxBytes 0 cs
          { result := r.2, bytesRead := r.1 }

end Dl

namespace Geo

/-- Frame dimensions, over ℚ (the filter arithmetic is exact here; encoder
rounding is outside the recipe). -/
structure Dims where
  w : ℚ
  h : ℚ
  deriving Repr, DecidableEq

/-- `scale=1080:1920:force_original_aspect_ratio=decrease`: uniform
scale-to-fit — the largest uniform scaling of the source that still fits
inside the 1080×1920 target. -/
def scaleDecrease (src : Dims) : Dims :=
  let f := min (1080 / src.w) (1920 / src.h)
  { w := f * src.w, h := f * src.h }

/-- `scale=1080:1920:force_original_aspect_ratio=increase`: uniform
scale-to-cover — the smallest uniform scaling of the source that covers the
1080×1920 target. -/
def scaleIncrease (src : Dims) : Dims :=
  let f := max (1080 / src.w) (1920 / src.h)
  { w := f * src.w, h := f * src.h }

/-- A letterboxed frame: the output canvas, the scaled content placed on
it, and the content offset from the top-left corner. -/
structure PaddedFrame where
  canvas : Dims
  content : Dims
  offX : ℚ
  offY : ℚ
  deriving Repr, DecidableEq

/-- The background stanza of the `worker.js` compositor filter:
`[0:v]scale=1080:1920:force_original_aspect_ratio=decrease,`
`pad=1080:1920:(ow-iw)/2:(oh-ih)/2,setsar=1` — scale-to-fit, then pad to
the fixed canvas with the content centered. -/
def workerBg (src : Dims) : PaddedFrame :=
  let s := scaleDecrease src
  { canvas := { w := 1080, h := 1920 }, content := s,
    offX := (1080 - s.w) / 2, offY := (1920 - s.h) / 2 }

/-- A cropped frame: the output canvas, the scaled content before
cropping, and how much scaled content width/height the crop discarded. -/
structure CroppedFrame where
  canvas : Dims
  scaled : Dims
  croppedW : ℚ
  croppedH : ℚ
  deriving Repr, DecidableEq

/-- The background stanza of the `server.js` `/heygen-callback` compositor
filter: `[0:v]scale=1080:1920:force_original_aspect_ratio=increase,`
`crop=1080:1920,setsar=1` — scale-to-cover, then crop the overflow down to
the fixed canvas. -/
def serverBg (src : Dims) : CroppedFrame :=
  let s := scaleIncrease src
  { canvas := { w := 1080, h := 1920 }, scaled := s,
    croppedW := s.w - 1080, croppedH := s.h - 1920 }

end Geo

/-! ## Concrete inputs used by witnesses and counterexamples -/

/-- A freshly enqueued job. -/
def qJob : Job := { id := 1, status := "queued" }

/-- A job the webhook has moved to `rendering`, avatar URL populated. -/
def rJob : Job :=
  { id := 2, status := "rendering",
    heygen_video_url := some "https://files.heygen.example/a.mp4" }

/-- A job in `rendering` whose `heygen_video_url` is still null — the §4.1
edge case (provider bug or race). -/
def strandedJob : Job := { id := 3, status := "rendering" }

/-- A job in the normal webhook precondition state. -/
def hreqJob : Job :=
  { id := 4, status := "heygen_requested", heygen_video_id := some "vid-9" }

/-- A job already claimed into `rendering_in_progress` whose
`heygen_video_url` is still null (reachable via the §4.1 edge case: the job
reached `rendering` without a URL and a worker claimed it). -/
def regressJob : Job :=
  { id := 7, status := "rendering_in_progress", heygen_video_id := some "vid-1" }

/-- A HeyGen status poll that resolves: one ok response with
`data.status = "completed"` and an http `data.video_url`. -/
def completedPoll : List Api.PollResp :=
  [{ ok := true,
     data := some { status := some "completed",
                    video_url := some "https://files.heygen.example/v.mp4" } }]

/-- The public locator produced by the Phase-2 upload in the scenarios
below. -/
def publishedUrl : String := "https://cdn.example/renders/final-9.mp4"

/-- A `rendering` job with avatar URL and requester email present. -/
def emailJob : Job :=
  { id := 9, status := "rendering",
    heygen_video_url := some "https://files.heygen.example/avatar.mp4",
    email := some "agent@example.com" }

/-- Phase-2 collaborators where everything succeeds except the notification
email send. -/
def emailFailOracle : Worker.Phase2Oracle :=
  { upload := Except.ok publishedUrl, sendEmail := Except.error "Resend: send failed" }

/-- A completed webhook payload for the legacy handler. -/
def completedPayloadV2 : LegacyApi.PayloadV2 :=
  { event_type := some "video.completed",
    video_url := some "https://files.heygen.example/v.mp4" }

/-- An ok response whose body is not streamable (`arrayBuffer` fallback) and
one byte over the 1 MB limit. -/
def oversizedBufferedResp : Dl.Resp :=
  { ok := true, status := 200, chunks := none, fallbackSize := 1048577 }

-- A quick sanity check that the poll postcondition holds: any URL returned
-- by the poll starts with "http".
theorem Api.fetchHeyGenVideoUrl_startsWith (polls : List Api.PollResp) (u : String)
    (h : Api.fetchHeyGenVideoUrl polls = some u) : strStartsWith u "http" = true := by
  induction polls with
  | nil => simp [Api.fetchHeyGenVideoUrl] at h
  | cons r rest ih =>
    by_cases hok : r.ok
    · cases hd : r.data with
      | none =>
        simp [Api.fetchHeyGenVideoUrl, hok, hd] at h
        exact ih h
      | some d =>
        cases hu : Api.extractPollUrl d with
        | none =>
          simp [Api.fetchHeyGenVideoUrl, hok, hd, hu] at h
          exact ih h
        | some v =>
          by_cases hc : d.status = some "completed" ∧ strStartsWith v "http" = true
          · simp [Api.fetchHeyGenVideoUrl, hok, hd, hu, hc] at h
            subst h
            exact hc.2
          · simp [Api.fetchHeyGenVideoUrl, hok, hd, hu, hc] at h
            exact ih h
    · simp [Api.fetchHeyGenVideoUrl, hok] at h
      exact ih h

/-! ## C2 — claim protocol exclusivity -/

/-- C2: claiming a job (`queued → processing`, `rendering →
rendering_in_progress`) is the single atomic conditional update
`claimUpdate`, keyed on the expected prior status.  Of two attempts on the
same job with the same expected prior status, the first succeeds and
returns the updated row; the second observes zero affected rows (`none`)
and leaves the store unchanged, abandoning the job without error. -/
theorem claim_exclusive_two_attempts (j k : Job)
    (hq : j.status = "queued") (hr : k.status = "rendering") :
    (lockQueued j).2 = some { j with status := "processing" } ∧
    (lockQueued (lockQueued j).1).2 = none ∧
    (lockQueued (lockQueued j).1).1 = (lockQueued j).1 ∧
    (lockRendering k).2 = some { k with status := "rendering_in_progress" } ∧
    (lockRendering (lockRendering k).1).2 = none ∧
    (lockRendering (lockRendering k).1).1 = (lockRendering k).1 := by
  simp [lockQueued, lockRendering, claimUpdate, hq, hr]

/-- C2 witness: the exclusivity theorem applied to concrete jobs. -/
theorem claim_exclusive_two_attempts_witness :
    (lockQueued qJob).2 = some { qJob with status := "processing" } ∧
    (lockQueued (lockQueued qJob).1).2 = none ∧
    (lockQueued (lockQueued qJob).1).1 = (lockQueued qJob).1 ∧
    (lockRendering rJob).2 = some { rJob with status := "rendering_in_progress" } ∧
    (lockRendering (lockRendering rJob).1).2 = none ∧
    (lockRendering (lockRendering rJob).1).1 = (lockRendering rJob).1 :=
  claim_exclusive_two_attempts qJob rJob rfl rfl

/-! ## C3 — Phase-2 claim with missing avatar URL -/

/-- C3 counterexample: in the `unnamed/part_007` iteration, a job claimed
from `rendering` whose `heygen_video_url` is null is NOT written back to
`rendering` — the function returns and the row stays in
`rendering_in_progress`, contradicting the claim that the job is never left
stranded there. -/
theorem part007_missing_avatar_leaves_in_progress :
    (Part007.processRendering strandedJob
        (Except.ok "https://cdn.example/final.mp4")).status
      = "rendering_in_progress" ∧
    (Part007.processRendering strandedJob
        (Except.ok "https://cdn.example/final.mp4")).status
      ≠ "rendering" := by
  exact ⟨rfl, by decide⟩

/-- C3 amended: in the production `worker.js`, Phase 2 re-checks
`heygen_video_url` after claiming and, when it is absent, writes the job
back to `rendering` (un-claim) without compositing and without error; the
`unnamed/part_007` iteration instead leaves such a job in
`rendering_in_progress`. -/
theorem worker_missing_avatar_unclaims (j : Job) (o : Worker.Phase2Oracle)
    (c : Except String String)
    (hst : j.status = "rendering") (hurl : jsTruthy j.heygen_video_url = false) :
    Worker.processRendering j o = ({ j with status := "rendering" }, none) ∧
    (Worker.processRendering j o).1.final_public_url = j.final_public_url ∧
    (Part007.processRendering j c).status = "rendering_in_progress" := by
  simp [Worker.processRendering, Part007.processRendering, hst, hurl]

/-- C3 witness: the un-claim theorem applied to a concrete stranded job. -/
theorem worker_missing_avatar_unclaims_witness :
    Worker.processRendering strandedJob
        { upload := Except.ok "https://cdn.example/final.mp4" }
      = ({ strandedJob with status := "rendering" }, none) ∧
    (Worker.processRendering strandedJob
        { upload := Except.ok "https://cdn.example/final.mp4" }).1.final_public_url
      = strandedJob.final_public_url ∧
    (Part007.processRendering strandedJob
        (Except.ok "https://cdn.example/final.mp4")).status
      = "rendering_in_progress" :=
  worker_missing_avatar_unclaims strandedJob
    { upload := Except.ok "https://cdn.example/final.mp4" }
    (Except.ok "https://cdn.example/final.mp4") rfl rfl

/-! ## C5 — scheduling after Phase 1 -/

/-- C5 counterexample: the cycle that claimed and ran Phase 1 on a queued
job ends with `sleep(POLL_MS)` before the next poll — the loop does NOT
restart immediately without the idle interval. -/
theorem phase1_cycle_sleeps_poll_interval :
    Worker.loopCycle (some qJob) none =
      [Worker.LoopEvent.pollQueued, Worker.LoopEvent.runPhase1 1,
       Worker.LoopEvent.sleepMs 5000] ∧
    Worker.LoopEvent.sleepMs Worker.POLL_MS ∈ Worker.loopCycle (some qJob) none := by
  exact ⟨rfl, by decide⟩

/-- C5 amended: after running Phase 1 (success or failure) the loop sleeps
the fixed poll interval and then restarts the cycle, skipping the Phase-2
poll of that cycle; it does not restart without sleeping. -/
theorem phase1_cycle_skips_phase2_then_sleeps (j : Job) (r : Option Job) :
    Worker.loopCycle (some j) r =
      [Worker.LoopEvent.pollQueued, Worker.LoopEvent.runPhase1 j.id,
       Worker.LoopEvent.sleepMs Worker.POLL_MS] := rfl

/-! ## C1 — webhook completion handling and idempotency -/

/-- C1 counterexample: the `api.js` handler keys its guard on
`heygen_video_url`, not on `status = "heygen_requested"`.  For a job in
`rendering_in_progress` with a `heygen_video_id` and no URL yet, a
completed delivery issues the update — setting `heygen_video_url` and
writing `status` back to `"rendering"` — although the current status is not
`heygen_requested`. -/
theorem heygen_callback_mutates_outside_heygen_requested :
    regressJob.status ≠ "heygen_requested" ∧
    Api.handleCallback (some "sec") { token := some "sec", job_id := some "7" }
        (some regressJob) completedPoll
      = some { regressJob with
                 status := "rendering"
                 heygen_video_url := some "https://files.heygen.example/v.mp4" } := by
  exact ⟨by decide, by decide⟩

/-- C1 amended: the handler mutates a job only when its
`heygen_video_url` is not yet an http URL; any mutation sets `status` to
`"rendering"` and an http `heygen_video_url`; and once that update has been
applied, every further delivery for the job — any token, any payload — is a
no-op, so delivering the same completion payload twice yields exactly one
transition. -/
theorem heygen_callback_guard_and_idempotent (secret : Option String)
    (req : Api.WebhookReq) (j j' : Job) (polls : List Api.PollResp)
    (h : Api.handleCallback secret req (some j) polls = some j') :
    Api.urlIsHttp j.heygen_video_url = false ∧
    j'.status = "rendering" ∧
    Api.urlIsHttp j'.heygen_video_url = true ∧
    ∀ (secret2 : Option String) (req2 : Api.WebhookReq) (polls2 : List Api.PollResp),
      Api.handleCallback secret2 req2 (some j') polls2 = none := by
  have hAuth : Api.handleAuthorized req (some j) polls = some j' := by
    cases secret with
    | none => simpa [Api.handleCallback] using h
    | some s =>
      by_cases ht : req.token = some s
      · simpa [Api.handleCallback, ht] using h
      · simp [Api.handleCallback, ht] at h
  cases hjid : req.job_id with
  | none => simp [Api.handleAuthorized, hjid] at hAuth
  | some jid =>
    by_cases hvid : jsTruthy j.heygen_video_id = true
    · by_cases hurl : Api.urlIsHttp j.heygen_video_url = true
      · simp [Api.handleAuthorized, hjid, hvid, hurl] at hAuth
      · cases hf : Api.fetchHeyGenVideoUrl polls with
        | none => simp [Api.handleAuthorized, hjid, hvid, hurl, hf] at hAuth
        | some u =>
          simp [Api.handleAuthorized, hjid, hvid, hurl, hf] at hAuth
          have hstart : strStartsWith u "http" = true :=
            Api.fetchHeyGenVideoUrl_startsWith polls u hf
          subst hAuth
          refine ⟨by simpa using hurl, rfl, by simpa [Api.urlIsHttp] using hstart, ?_⟩
          intro secret2 req2 polls2
          have hAuth2 : Api.handleAuthorized req2
              (some { j with status := "rendering", heygen_video_url := some u }) polls2
                = none := by
            cases hjid2 : req2.job_id with
            | none => simp [Api.handleAuthorized, hjid2]
            | some jid2 =>
              simp [Api.handleAuthorized, hjid2, hvid, Api.urlIsHttp, hstart]
          cases secret2 with
          | none => simpa [Api.handleCallback] using hAuth2
          | some s2 =>
            by_cases ht2 : req2.token = some s2
            · simpa [Api.handleCallback, ht2] using hAuth2
            · simp [Api.handleCallback, ht2]
    · simp [Api.handleAuthorized, hjid, hvid] at hAuth

/-- C1 witness: the guard/idempotency theorem applied to a concrete
`heygen_requested` job, first delivery concrete, second delivery
instantiated with the same token and payload. -/
theorem heygen_callback_guard_and_idempotent_witness :
    Api.urlIsHttp hreqJob.heygen_video_url = false ∧
    ({ hreqJob with
         status := "rendering"
         heygen_video_url := some "https://files.heygen.example/v.mp4" } : Job).status
      = "rendering" ∧
    Api.urlIsHttp ({ hreqJob with
                       status := "rendering"
                       heygen_video_url := some "https://files.heygen.example/v.mp4" }
                     : Job).heygen_video_url = true ∧
    Api.handleCallback (some "sec") { token := some "sec", job_id := some "4" }
        (some { hreqJob with
                  status := "rendering"
                  heygen_video_url := some "https://files.heygen.example/v.mp4" })
        completedPoll
      = none := by
  have h0 : Api.handleCallback (some "sec")
      { token := some "sec", job_id := some "4" } (some hreqJob) completedPoll
        = some { hreqJob with
                   status := "rendering"
                   heygen_video_url := some "https://files.heygen.example/v.mp4" } := by
    decide
  obtain ⟨a, b, c, d⟩ := heygen_callback_guard_and_idempotent (some "sec")
    { token := some "sec", job_id := some "4" } hreqJob _ completedPoll h0
  exact ⟨a, b, c, d (some "sec") { token := some "sec", job_id := some "4" } completedPoll⟩

/-! ## C7 — webhook authorization -/

/-- C7: when a webhook secret is configured and the supplied token is
missing or does not match, the handler performs no mutation of any job
record regardless of payload validity; when no secret is configured, the
token check is skipped and processing proceeds identically for every token
(permissive mode). -/
theorem webhook_auth_no_mutation_and_permissive :
    (∀ (s : String) (req : Api.WebhookReq) (job : Option Job)
        (polls : List Api.PollResp),
        req.token ≠ some s → Api.handleCallback (some s) req job polls = none) ∧
    (∀ (t t2 jid : Option String) (job : Option Job) (polls : List Api.PollResp),
        Api.handleCallback none { token := t, job_id := jid } job polls =
          Api.handleCallback none { token := t2, job_id := jid } job polls) := by
  constructor
  · intro s req job polls hbad
    simp [Api.handleCallback, hbad]
  · intro t t2 jid job polls
    cases jid <;> rfl

/-- C7 witness: a wrong token against a configured secret mutates nothing
even for a fully valid job and payload, and with no secret the result does
not depend on the token. -/
theorem webhook_auth_witness :
    Api.handleCallback (some "sec") { token := some "wrong", job_id := some "2" }
        (some rJob) completedPoll = none ∧
    Api.handleCallback none { token := some "anything", job_id := some "2" }
        (some rJob) completedPoll =
      Api.handleCallback none { token := none, job_id := some "2" }
        (some rJob) completedPoll :=
  ⟨webhook_auth_no_mutation_and_permissive.1 "sec"
      { token := some "wrong", job_id := some "2" } (some rJob) completedPoll
      (by decide),
   webhook_auth_no_mutation_and_permissive.2 (some "anything") none (some "2")
      (some rJob) completedPoll⟩

/-! ## C8 — unconditional acknowledgment -/

/-- C8 counterexample: the `/heygen-callback` iteration of
`unnamed/part_000` (second version) does not respond `200 ok:true`
unconditionally — a bad token yields `401`, and on the success path the
response is sent only after the job update, not before. -/
theorem legacy_callback_not_unconditional_ack :
    LegacyApi.callbackV2 (some "sec") (some "wrong") (some "7") completedPayloadV2 false
      = [Api.WebhookEvent.respond 401 false] ∧
    Api.WebhookEvent.respond 200 true ∉
      LegacyApi.callbackV2 (some "sec") (some "wrong") (some "7") completedPayloadV2 false ∧
    LegacyApi.callbackV2 (some "sec") (some "sec") (some "7") completedPayloadV2 false
      = [Api.WebhookEvent.dbUpdate, Api.WebhookEvent.respond 200 false] := by
  refine ⟨by decide, by decide, by decide⟩

/-- C8 amended: the production `api.js` handler responds `200 ok:true`
first, for every request — bad token, missing job id, unknown job,
incomplete payload — and any job-state mutation happens strictly after the
response event. -/
theorem api_callback_ack_first_always_ok (secret : Option String)
    (req : Api.WebhookReq) (job : Option Job) (polls : List Api.PollResp) :
    (Api.callbackTrace secret req job polls).head?
      = some (Api.WebhookEvent.respond 200 true) ∧
    (Api.callbackTrace secret req job polls).tail.all
      (fun e => e == Api.WebhookEvent.dbUpdate) = true := by
  unfold Api.callbackTrace
  cases Api.handleCallback secret req job polls <;> simp

/-! ## C4 — final locator invariant, and C6 — notification failure -/

/-- C4: the invariant `final_public_url` set iff `status = "completed"` is
broken by the code.  When the notification email throws after Phase 2 has
published and completed the job, the loop routes the error through
`failJob`: the resulting row has `status = "failed"` with
`final_public_url` still set. -/
theorem email_failure_breaks_final_url_invariant :
    (Worker.phase2Step emailJob emailFailOracle).status = "failed" ∧
    (Worker.phase2Step emailJob emailFailOracle).final_public_url = some publishedUrl ∧
    ¬ ((Worker.phase2Step emailJob emailFailOracle).final_public_url ≠ none ↔
        (Worker.phase2Step emailJob emailFailOracle).status = "completed") := by
  refine ⟨by decide, by decide, by decide⟩

/-- C6: a failing notification send is not merely logged — because
`sendFinalEmail` is awaited without a surrounding try/catch, its error
escapes `processRendering` and the loop marks the already-published job
`failed` with `last_error` set; with a succeeding send the job stays
`completed`. -/
theorem email_failure_marks_job_failed :
    (Worker.phase2Step emailJob emailFailOracle).status = "failed" ∧
    (Worker.phase2Step emailJob emailFailOracle).error = some "Resend: send failed" ∧
    (Worker.phase2Step emailJob
        { emailFailOracle with sendEmail := Except.ok () }).status = "completed" := by
  refine ⟨by decide, by decide, by decide⟩

/-! ## C9 — media fetch limits -/

/-- Helper: the streaming loop never reads more than `maxBytes` plus one
further chunk — its byte counter is bounded by `maxBytes` plus the largest
chunk size. -/
theorem Dl.streamLoop_fst_le (maxBytes : Nat) (cs : List Nat) (acc : Nat)
    (h : acc ≤ maxBytes) :
    (Dl.streamLoop maxBytes acc cs).1 ≤ maxBytes + cs.foldr max 0 := by
  induction cs generalizing acc with
  | nil =>
    simp [Dl.streamLoop]
    omega
  | cons c rest ih =>
    by_cases hlt : maxBytes < acc + c
    · simp [Dl.streamLoop, hlt]
      have h2 : c ≤ max c (rest.foldr max 0) := Nat.le_max_left _ _
      omega
    · simp [Dl.streamLoop, hlt]
      have h1 := ih (acc + c) (by omega)
      have h2 : rest.foldr max 0 ≤ max c (rest.foldr max 0) := Nat.le_max_right _ _
      omega

/-- Helper: when the total body size exceeds the limit, the streaming loop
throws the size error. -/
theorem Dl.streamLoop_err (maxBytes : Nat) (cs : List Nat) (acc : Nat)
    (h0 : acc ≤ maxBytes) (h : maxBytes < acc + cs.sum) :
    (Dl.streamLoop maxBytes acc cs).2 = Except.error "File too large" := by
  induction cs generalizing acc with
  | nil =>
    exfalso
    simp [List.sum_nil] at h
    omega
  | cons c rest ih =>
    by_cases hlt : maxBytes < acc + c
    · simp [Dl.streamLoop, hlt]
    · simp [Dl.streamLoop, hlt]
      refine ih (acc + c) (by omega) ?_
      simp [List.sum_cons] at h
      omega

/-- C9 counterexample: when the response body exposes no stream reader,
`downloadToFile` falls back to `arrayBuffer` — the oversized source is
read into memory in full (`bytesRead` equals the whole body size) and only
then rejected, contradicting the claim that an oversized source is never
fully buffered before rejection. -/
theorem download_fallback_fully_buffers_oversized :
    (Dl.downloadToFile "https://big.example/v.mp4" (some 1)
        (Except.ok oversizedBufferedResp)).result
      = Except.error "File too large" ∧
    (Dl.downloadToFile "https://big.example/v.mp4" (some 1)
        (Except.ok oversizedBufferedResp)).bytesRead
      = Dl.bodySize oversizedBufferedResp ∧
    Dl.bodySize oversizedBufferedResp = 1048577 := by
  exact ⟨rfl, rfl, rfl⟩

/-- C9 amended: the fetch fails when the request itself fails (timeout
aborts and exhausted retries), when the response is not successful, and
when the received bytes exceed the limit (for a truthy `maxMB`, the limit
is `maxMB` megabytes; a missing or zero `maxMB` falls back to the 9999 MB
default).  On a streamable body the limit is enforced incrementally — the
bytes read never exceed the limit plus a single chunk.  On a
non-streamable body the source is fully buffered first and rejected
afterwards. -/
theorem download_limit_enforced (url : String) (maxMB : Nat) (resp : Dl.Resp)
    (hurl : strStartsWith url "http" = true) (hmb : maxMB ≠ 0) :
    (∀ e : String, (Dl.downloadToFile url (some maxMB) (Except.error e)).result
        = Except.error e) ∧
    (resp.ok = false → (Dl.downloadToFile url (some maxMB) (Except.ok resp)).result
        = Except.error "Download failed") ∧
    (∀ cs : List Nat, resp.chunks = some cs → resp.ok = true →
        maxMB * 1024 * 1024 < cs.sum →
        (Dl.downloadToFile url (some maxMB) (Except.ok resp)).result
            = Except.error "File too large" ∧
          (Dl.downloadToFile url (some maxMB) (Except.ok resp)).bytesRead
            ≤ maxMB * 1024 * 1024 + cs.foldr max 0) ∧
    (resp.chunks = none → resp.ok = true →
        maxMB * 1024 * 1024 < resp.fallbackSize →
        (Dl.downloadToFile url (some maxMB) (Except.ok resp)).result
            = Except.error "File too large" ∧
          (Dl.downloadToFile url (some maxMB) (Except.ok resp)).bytesRead
            = resp.fallbackSize) := by
  have hnum : Dl.jsNumOr (some maxMB) 9999 = maxMB := by
    simp [Dl.jsNumOr, hmb]
  refine ⟨?_, ?_, ?_, ?_⟩
  · intro e
    simp [Dl.downloadToFile, hurl]
  · intro hok
    simp [Dl.downloadToFile, hurl, hok]
  · intro cs hcs hok hover
    have herr := Dl.streamLoop_err (maxMB * 1024 * 1024) cs 0 (Nat.zero_le _)
      (by omega)
    have hle := Dl.streamLoop_fst_le (maxMB * 1024 * 1024) cs 0 (Nat.zero_le _)
    constructor
    · simp [Dl.downloadToFile, hurl, hok, hcs, hnum, herr]
    · simp [Dl.downloadToFile, hurl, hok, hcs, hnum]
      exact hle
  · intro hcs hok hover
    constructor
    · simp [Dl.downloadToFile, hurl, hok, hcs, hnum, hover]
    · simp [Dl.downloadToFile, hurl, hok, hcs, hnum, hover]

/-- C9 witness: the amended theorem at a concrete streaming download whose
first chunk is one byte over a 1 MB limit. -/
theorem download_limit_enforced_witness :
    (Dl.downloadToFile "https://a.example/f.mp4" (some 1)
        (Except.ok { ok := true, status := 200, chunks := some [1048577],
                     fallbackSize := 0 })).result
      = Except.error "File too large" ∧
    (Dl.downloadToFile "https://a.example/f.mp4" (some 1)
        (Except.ok { ok := true, status := 200, chunks := some [1048577],
                     fallbackSize := 0 })).bytesRead
      ≤ 1 * 1024 * 1024 + ([1048577] : List Nat).foldr max 0 :=
  (download_limit_enforced "https://a.example/f.mp4" 1
      { ok := true, status := 200, chunks := some [1048577], fallbackSize := 0 }
      (by decide) (by decide)).2.2.1 [1048577] rfl rfl (by decide)

/-! ## C10 — background normalization -/

/-- C10 counterexample: the `server.js` `/heygen-callback` compositor
stanza uses `force_original_aspect_ratio=increase` followed by
`crop=1080:1920`.  For a 1920×1080 landscape input the scaled background
is wider than the canvas and the crop discards part of it — background
content IS cropped, contradicting the claim for this cited recipe. -/
theorem server_bg_filter_crops_landscape :
    (Geo.serverBg { w := 1920, h := 1080 }).canvas = { w := 1080, h := 1920 } ∧
    0 < (Geo.serverBg { w := 1920, h := 1080 }).croppedW := by
  constructor
  · rfl
  · have hmax : max ((1080 : ℚ) / 1920) ((1920 : ℚ) / 1080) = (1920 : ℚ) / 1080 :=
      max_eq_right (by norm_num)
    simp [Geo.serverBg, Geo.scaleIncrease, hmax]
    norm_num

/-- C10 amended: the `worker.js` compositor stanza
(`scale=...decrease,pad=...`) satisfies the claimed invariant for every
background with positive dimensions: the output canvas is always
1080×1920, the scaled content fits inside it (nothing is cropped), the
aspect ratio is preserved exactly, and the padding centers the content. -/
theorem worker_bg_letterboxes_without_crop (src : Geo.Dims)
    (hw : 0 < src.w) (hh : 0 < src.h) :
    (Geo.workerBg src).canvas = { w := 1080, h := 1920 } ∧
    (Geo.workerBg src).content.w ≤ 1080 ∧
    (Geo.workerBg src).content.h ≤ 1920 ∧
    (Geo.workerBg src).content.w * src.h = (Geo.workerBg src).content.h * src.w ∧
    0 ≤ (Geo.workerBg src).offX ∧
    0 ≤ (Geo.workerBg src).offY ∧
    2 * (Geo.workerBg src).offX + (Geo.workerBg src).content.w = 1080 ∧
    2 * (Geo.workerBg src).offY + (Geo.workerBg src).content.h = 1920 := by
  have hw0 : src.w ≠ 0 := ne_of_gt hw
  have hh0 : src.h ≠ 0 := ne_of_gt hh
  have hle1 : min (1080 / src.w) (1920 / src.h) * src.w ≤ 1080 := by
    have hmin : min (1080 / src.w) (1920 / src.h) ≤ 1080 / src.w := min_le_left _ _
    calc min (1080 / src.w) (1920 / src.h) * src.w
        ≤ (1080 / src.w) * src.w := mul_le_mul_of_nonneg_right hmin (le_of_lt hw)
      _ = 1080 := div_mul_cancel₀ _ hw0
  have hle2 : min (1080 / src.w) (1920 / src.h) * src.h ≤ 1920 := by
    have hmin : min (1080 / src.w) (1920 / src.h) ≤ 1920 / src.h := min_le_right _ _
    calc min (1080 / src.w) (1920 / src.h) * src.h
        ≤ (1920 / src.h) * src.h := mul_le_mul_of_nonneg_right hmin (le_of_lt hh)
      _ = 1920 := div_mul_cancel₀ _ hh0
  refine ⟨rfl, ?_, ?_, ?_, ?_, ?_, ?_, ?_⟩
  · simpa [Geo.workerBg, Geo.scaleDecrease] using hle1
  · simpa [Geo.workerBg, Geo.scaleDecrease] using hle2
  · simp [Geo.workerBg, Geo.scaleDecrease]
    ring
  · simp [Geo.workerBg, Geo.scaleDecrease]
    have : (0 : ℚ) ≤ 1080 - min (1080 / src.w) (1920 / src.h) * src.w := by linarith
    positivity
  · simp [Geo.workerBg, Geo.scaleDecrease]
    have : (0 : ℚ) ≤ 1920 - min (1080 / src.w) (1920 / src.h) * src.h := by linarith
    positivity
  · simp [Geo.workerBg, Geo.scaleDecrease]
    ring
  · simp [Geo.workerBg, Geo.scaleDecrease]
    ring

/-- C10 witness: the letterboxing theorem at a 1920×1080 landscape
background. -/
theorem worker_bg_letterboxes_without_crop_witness :
    (Geo.workerBg { w := 1920, h := 1080 }).canvas = { w := 1080, h := 1920 } ∧
    (Geo.workerBg { w := 1920, h := 1080 }).content.w ≤ 1080 ∧
    (Geo.workerBg { w := 1920, h := 1080 }).content.h ≤ 1920 ∧
    (Geo.workerBg { w := 1920, h := 1080 }).content.w * (1080 : ℚ)
      = (Geo.workerBg { w := 1920, h := 1080 }).content.h * (1920 : ℚ) ∧
    0 ≤ (Geo.workerBg { w := 1920, h := 1080 }).offX ∧
    0 ≤ (Geo.workerBg { w := 1920, h := 1080 }).offY ∧
    2 * (Geo.workerBg { w := 1920, h := 1080 }).offX
        + (Geo.workerBg { w := 1920, h := 1080 }).content.w = 1080 ∧
    2 * (Geo.workerBg { w := 1920, h := 1080 }).offY
        + (Geo.workerBg { w := 1920, h := 1080 }).content.h = 1920 :=
  worker_bg_letterboxes_without_crop { w := 1920, h := 1080 }
    (by norm_num) (by norm_num)
